import Mathlib

/-!
Shallow embedding of `certificateBar` (`certificate/certhandler.go`) and a
verification of its specified behaviour.

Modelling conventions:
* Go byte slices (and the raw bytes of Go strings where byte structure
  matters, e.g. `Certificate.Id`) are `List Nat`, each entry a byte < 256.
* Go strings used only for equality tests (names, usage tokens, hash tokens)
  are Lean `String`.
* The 32-bit words of SHA-1 are `Nat` reduced modulo `2^32` at every step.
-/

namespace CertificateBar

/-! ### SHA-1 (model of the Go standard library `crypto/sha1` collaborator) -/

/-- Left rotation of a 32-bit word. -/
def rotl32 (n w : Nat) : Nat :=
  ((w <<< n) ||| (w >>> (32 - n))) % 4294967296

/-- The SHA-1 round function `f_t`. -/
def sha1F (t b c d : Nat) : Nat :=
  if t < 20 then (b &&& c) ||| ((b ^^^ 4294967295) &&& d)
  else if t < 40 then b ^^^ c ^^^ d
  else if t < 60 then (b &&& c) ||| (b &&& d) ||| (c &&& d)
  else b ^^^ c ^^^ d

/-- The SHA-1 round constant `K_t`. -/
def sha1K (t : Nat) : Nat :=
  if t < 20 then 1518500249
  else if t < 40 then 1859775393
  else if t < 60 then 2400959708
  else 3395469782

/-- Big-endian grouping of bytes into 32-bit words. -/
def bytesToWords : List Nat → List Nat
  | a :: b :: c :: d :: rest => (((a * 256 + b) * 256 + c) * 256 + d) :: bytesToWords rest
  | _ => []

/-- One step of the message-schedule extension:
`w[t] = rotl1 (w[t-3] xor w[t-8] xor w[t-14] xor w[t-16])`. -/
def schedStep (ws : List Nat) : List Nat :=
  let n := ws.length
  ws ++ [rotl32 1 ((ws.getD (n - 3) 0) ^^^ (ws.getD (n - 8) 0) ^^^
                   (ws.getD (n - 14) 0) ^^^ (ws.getD (n - 16) 0))]

/-- Extend the 16-word schedule by `n` further words. -/
def sched : List Nat → Nat → List Nat
  | ws, 0 => ws
  | ws, n + 1 => schedStep (sched ws n)

structure Sha1State where
  a : Nat
  b : Nat
  c : Nat
  d : Nat
  e : Nat

/-- One of the 80 compression rounds; the pair carries `(t, w[t])`. -/
def sha1Round (st : Sha1State) (tw : Nat × Nat) : Sha1State :=
  let temp := ((rotl32 5 st.a) + sha1F tw.fst st.b st.c st.d + st.e + tw.snd
               + sha1K tw.fst) % 4294967296
  ⟨temp, st.a, rotl32 30 st.b, st.c, st.d⟩

/-- Process one 64-byte block. -/
def sha1Block (h : Sha1State) (block : List Nat) : Sha1State :=
  let ws := sched (bytesToWords block) 64
  let st := ((List.range 80).zip ws).foldl sha1Round h
  ⟨(h.a + st.a) % 4294967296, (h.b + st.b) % 4294967296, (h.c + st.c) % 4294967296,
   (h.d + st.d) % 4294967296, (h.e + st.e) % 4294967296⟩

/-- Big-endian 8-byte encoding of the bit length. -/
def sha1LenBytes (n : Nat) : List Nat :=
  [n / 72057594037927936 % 256, n / 281474976710656 % 256, n / 1099511627776 % 256,
   n / 4294967296 % 256, n / 16777216 % 256, n / 65536 % 256, n / 256 % 256, n % 256]

/-- Merkle–Damgård padding: `0x80`, zeros, then the 64-bit message bit length. -/
def sha1Pad (msg : List Nat) : List Nat :=
  msg ++ 128 :: (List.replicate ((119 - msg.length % 64) % 64) 0 ++ sha1LenBytes (msg.length * 8))

/-- Split a byte list into 64-byte blocks; the fuel argument is an upper bound
on the number of blocks (the list length suffices). -/
def chunks64 : Nat → List Nat → List (List Nat)
  | 0, _ => []
  | _, [] => []
  | fuel + 1, l => l.take 64 :: chunks64 fuel (l.drop 64)

def sha1Init : Sha1State :=
  ⟨1732584193, 4023233417, 2562383102, 271733878, 3285377520⟩

/-- Big-endian 4-byte serialization of a 32-bit word. -/
def wordBytes (w : Nat) : List Nat :=
  [w / 16777216 % 256, w / 65536 % 256, w / 256 % 256, w % 256]

/-- SHA-1 digest of a byte list: 20 bytes. -/
def sha1 (msg : List Nat) : List Nat :=
  let padded := sha1Pad msg
  let st := (chunks64 padded.length padded).foldl sha1Block sha1Init
  wordBytes st.a ++ wordBytes st.b ++ wordBytes st.c ++ wordBytes st.d ++ wordBytes st.e

/-! ### The `x509`/`pkix` value types used by `certhandler.go` -/

/-- The `x509.SignatureAlgorithm` constants reachable from `certhandler.go`. -/
inductive SigAlg where
  | SHA1WithRSA
  | SHA256WithRSA
  | SHA384WithRSA
  | SHA512WithRSA
  | ECDSAWithSHA1
  | ECDSAWithSHA256
  | ECDSAWithSHA384
  | ECDSAWithSHA512
  deriving DecidableEq

/-- The `x509.ExtKeyUsage` constants reachable from `certhandler.go`. -/
inductive ExtKeyUsage where
  | clientAuth
  | serverAuth
  deriving DecidableEq

/-- `x509.KeyUsage` is a bit set; bit positions as in Go's `crypto/x509`
(`KeyUsageDigitalSignature = 1 << iota`, ...). -/
def KeyUsageDigitalSignature : Nat := 1
def KeyUsageContentCommitment : Nat := 2
def KeyUsageKeyEncipherment : Nat := 4
def KeyUsageCertSign : Nat := 32
def KeyUsageCRLSign : Nat := 64

/-- The subject fields of `pkix.Name` that `certhandler.go` touches.
`CommonName` is an `Option` so that "attribute never assigned" (Go zero value,
omitted when the name is marshalled) is distinguished from an assigned value. -/
structure PkixName where
  Country : List String
  Organization : List String
  OrganizationalUnit : List String
  CommonName : Option String

/-- The fields of `x509.Certificate` that `CreateCertificateTemplate` sets.
Validity instants are modelled as integer timestamps. -/
structure X509Certificate where
  SerialNumber : Nat
  Subject : PkixName
  NotBefore : Int
  NotAfter : Int
  SubjectKeyId : List Nat
  BasicConstraintsValid : Bool
  SignatureAlgorithm : SigAlg
  IsCA : Bool
  ExtKeyUsage : List ExtKeyUsage
  KeyUsage : Nat
  DNSNames : List String

/-- Modelled from the spec: the key package's opaque key handle (Go
`interface{}`), "polymorphic over {RSA key, elliptic-curve key}".  The handle
carries the canonical public-key byte serialization that
`key.PublicKey`/`key.PublicKeyBitArray` expose (that package is an external
collaborator of this file). -/
inductive PrivateKeyHandle where
  | rsa (pubBytes : List Nat)
  | ecdsa (pubBytes : List Nat)

/-- Modelled from the spec: composition of `key.PublicKey` and
`key.PublicKeyBitArray` — "serialize the public key to its canonical bit
representation" (the returned error is ignored by `keyIdentifier`). -/
def pubKeyBytes : PrivateKeyHandle → List Nat
  | .rsa pub => pub
  | .ecdsa pub => pub

/-- The domain model `Certificate` struct.  `Id` is kept as its raw bytes
because `CreateCertificateTemplate` consumes `[]byte(data.Id)`. -/
structure Certificate where
  Id : List Nat
  Country : String
  Organization : String
  OrganizationalUnit : String
  CommonName : String
  AlternativeNames : List String
  Usage : List String
  CA : Bool
  PrivateKey : PrivateKeyHandle
  SignatureAlg : String
  ValidFrom : Int
  ValidTo : Int

/-! ### The functions of `certhandler.go` -/

/-- `new(big.Int).SetBytes(bs)`: the bytes interpreted as a big-endian
unsigned integer. -/
def natOfBytes (bs : List Nat) : Nat :=
  bs.foldl (fun acc b => acc * 256 + b) 0

/-- `keyIdentifier`: SHA-1 of the public key's canonical byte serialization. -/
def keyIdentifier (pub : List Nat) : List Nat :=
  sha1 pub

/-- `findRsaSignALg`: the Go `switch` rendered as sequential equality tests. -/
def findRsaSignALg (algType : String) : SigAlg :=
  if algType = "SHA1" then .SHA1WithRSA
  else if algType = "SHA256" then .SHA256WithRSA
  else if algType = "SHA384" then .SHA384WithRSA
  else if algType = "SHA512" then .SHA512WithRSA
  else .SHA256WithRSA

/-- `findEcdsaSignALg`. -/
def findEcdsaSignALg (algType : String) : SigAlg :=
  if algType = "SHA1" then .ECDSAWithSHA1
  else if algType = "SHA256" then .ECDSAWithSHA256
  else if algType = "SHA384" then .ECDSAWithSHA384
  else if algType = "SHA512" then .ECDSAWithSHA512
  else .ECDSAWithSHA256

/-- `signatureAlgorithm`: type switch on the private key.  The Go `default`
branch (`log.Fatal`) is unreachable here because the handle type is closed
over the two supported key kinds. -/
def signatureAlgorithm (algType : String) (privateKey : PrivateKeyHandle) : SigAlg :=
  match privateKey with
  | .rsa _ => findRsaSignALg algType
  | .ecdsa _ => findEcdsaSignALg algType

/-- `isStringInList`. -/
def isStringInList (value : String) : List String → Bool
  | [] => false
  | v :: rest => if v = value then true else isStringInList value rest

/-- `getDefaultKeyUsage`. -/
def getDefaultKeyUsage (ca : Bool) : Nat :=
  if ca then KeyUsageCRLSign ||| KeyUsageCertSign
  else KeyUsageKeyEncipherment ||| KeyUsageDigitalSignature

/-- `getDefaultExtKeyUsage`. -/
def getDefaultExtKeyUsage (ca : Bool) : List ExtKeyUsage :=
  if ca then []
  else [.clientAuth, .serverAuth]

/-- The `for`/`switch` loop body of `getUsage`, with the two accumulators
(`keyUsage`, `extKeyUsage`) passed explicitly. -/
def getUsageLoop (keyUsage : Nat) (extKeyUsage : List ExtKeyUsage) :
    List String → Nat × List ExtKeyUsage
  | [] => (keyUsage, extKeyUsage)
  | key :: rest =>
    if key = "crlsign" then getUsageLoop (keyUsage ||| KeyUsageCRLSign) extKeyUsage rest
    else if key = "certsign" then getUsageLoop (keyUsage ||| KeyUsageCertSign) extKeyUsage rest
    else if key = "encipherment" then
      getUsageLoop (keyUsage ||| KeyUsageKeyEncipherment) extKeyUsage rest
    else if key = "signature" then
      getUsageLoop (keyUsage ||| KeyUsageDigitalSignature) extKeyUsage rest
    else if key = "contentcommitment" then
      getUsageLoop (keyUsage ||| KeyUsageContentCommitment) extKeyUsage rest
    else if key = "clientauth" then
      getUsageLoop keyUsage (extKeyUsage ++ [ExtKeyUsage.clientAuth]) rest
    else if key = "serverauth" then
      getUsageLoop keyUsage (extKeyUsage ++ [ExtKeyUsage.serverAuth]) rest
    else getUsageLoop keyUsage extKeyUsage rest

/-- `getUsage`. -/
def getUsage (usage : List String) (ca : Bool) : Nat × List ExtKeyUsage :=
  if usage.length = 0 then (getDefaultKeyUsage ca, getDefaultExtKeyUsage ca)
  else getUsageLoop 0 [] usage

/-- `CreateCertificateTemplate`.  The two conditional assignments that follow
the Go struct literal (`cert.Subject.CommonName = ...` when `CommonName` is
non-empty; the `DNSNames` block when `AlternativeNames` is non-empty) are
rendered functionally in the corresponding fields. -/
def CreateCertificateTemplate (data : Certificate) : X509Certificate :=
  let pub := pubKeyBytes data.PrivateKey
  let subjectKeyId := keyIdentifier pub
  let usagePair := getUsage data.Usage data.CA
  { SerialNumber := natOfBytes data.Id
    Subject :=
      { Country := [data.Country]
        Organization := [data.Organization]
        OrganizationalUnit := [data.OrganizationalUnit]
        CommonName := if data.CommonName ≠ "" then some data.CommonName else none }
    NotBefore := data.ValidFrom
    NotAfter := data.ValidTo
    SubjectKeyId := subjectKeyId
    BasicConstraintsValid := true
    SignatureAlgorithm := signatureAlgorithm data.SignatureAlg data.PrivateKey
    IsCA := data.CA
    ExtKeyUsage := usagePair.snd
    KeyUsage := usagePair.fst
    DNSNames :=
      if data.AlternativeNames.length > 0 then
        if isStringInList data.CommonName data.AlternativeNames then data.AlternativeNames
        else data.AlternativeNames ++ [data.CommonName]
      else [] }

/-- The abnormal terminations `CheckCertificate` can run into: Go's
`CertPool.AddCert` panics on a nil certificate, and calling `Verify` on a nil
`*Certificate` dereferences a nil pointer. -/
inductive GoPanic where
  | addNilCert
  | nilDeref
  deriving DecidableEq

/-- `CheckCertificate`, parameterized over the `crypto/x509` collaborator:
`parseCertificate` models `x509.ParseCertificate` (with `none` for a parse
error, whose `*Certificate` result is nil), `parseCertificates` models
`x509.ParseCertificates` (errors ignored; a failed parse contributes no
certificates), and `verifyOk` models `leaf.Verify(opts)` succeeding against
the root pool and intermediate pool with the bound DNS name.  Both parse
errors are discarded in the Go source; a nil root is then fed to
`rootPool.AddCert` (panic) and a nil leaf receives the `Verify` call
(nil-pointer dereference). -/
def CheckCertificate {C : Type} (parseCertificate : List Nat → Option C)
    (parseCertificates : List Nat → List C)
    (verifyOk : C → String → List C → List C → Bool)
    (dnsName : String) (caBytes interCaBytes clientBytes : List Nat) :
    Except GoPanic Bool :=
  match parseCertificate caBytes with
  | none => Except.error GoPanic.addNilCert
  | some rootCert =>
    let interCerts := parseCertificates interCaBytes
    match parseCertificate clientBytes with
    | none => Except.error GoPanic.nilDeref
    | some clientCert =>
      if verifyOk clientCert dnsName [rootCert] interCerts then Except.ok true
      else Except.ok false

/-! ### Spec-side vocabulary (defined from the spec's words, for comparison
with the source functions) -/

/-- Key families, for stating that an algorithm belongs to its key's family. -/
inductive KeyKind where
  | rsa
  | ecdsa
  deriving DecidableEq

def keyKind : PrivateKeyHandle → KeyKind
  | .rsa _ => .rsa
  | .ecdsa _ => .ecdsa

/-- The family a signature algorithm belongs to. -/
def algKind : SigAlg → KeyKind
  | .SHA1WithRSA => .rsa
  | .SHA256WithRSA => .rsa
  | .SHA384WithRSA => .rsa
  | .SHA512WithRSA => .rsa
  | .ECDSAWithSHA1 => .ecdsa
  | .ECDSAWithSHA256 => .ecdsa
  | .ECDSAWithSHA384 => .ecdsa
  | .ECDSAWithSHA512 => .ecdsa

/-- Spec-side: "maps `SHA1|SHA256|SHA384|SHA512` to the corresponding
family-specific algorithm; any other token (including empty) defaults to that
family's SHA-256 variant". -/
def familyAlg (k : KeyKind) (t : String) : SigAlg :=
  match k with
  | .rsa =>
    if t = "SHA1" then .SHA1WithRSA
    else if t = "SHA256" then .SHA256WithRSA
    else if t = "SHA384" then .SHA384WithRSA
    else if t = "SHA512" then .SHA512WithRSA
    else .SHA256WithRSA
  | .ecdsa =>
    if t = "SHA1" then .ECDSAWithSHA1
    else if t = "SHA256" then .ECDSAWithSHA256
    else if t = "SHA384" then .ECDSAWithSHA384
    else if t = "SHA512" then .ECDSAWithSHA512
    else .ECDSAWithSHA256

/-- Spec-side: the key-usage bit a single recognized bit token contributes
(zero for anything else). -/
def usageBit (t : String) : Nat :=
  if t = "crlsign" then KeyUsageCRLSign
  else if t = "certsign" then KeyUsageCertSign
  else if t = "encipherment" then KeyUsageKeyEncipherment
  else if t = "signature" then KeyUsageDigitalSignature
  else if t = "contentcommitment" then KeyUsageContentCommitment
  else 0

/-- Spec-side: the extended-usage entry a single token contributes. -/
def extTok (t : String) : Option ExtKeyUsage :=
  if t = "clientauth" then some .clientAuth
  else if t = "serverauth" then some .serverAuth
  else none

/-- Spec-side: whether a usage token is one of the seven recognized tokens. -/
def recognizedUsageToken (t : String) : Bool :=
  decide (t = "crlsign") || decide (t = "certsign") || decide (t = "encipherment") ||
  decide (t = "signature") || decide (t = "contentcommitment") ||
  decide (t = "clientauth") || decide (t = "serverauth")

/-! ### Concrete example descriptors -/

/-- A descriptor with empty common name and a non-empty SAN list. -/
def c1cx : Certificate :=
  { Id := [65], Country := "SE", Organization := "org", OrganizationalUnit := "ou",
    CommonName := "", AlternativeNames := ["b.com"], Usage := [], CA := false,
    PrivateKey := .rsa [1], SignatureAlg := "SHA256", ValidFrom := 0, ValidTo := 1 }

/-- A descriptor with common name absent from its SAN list. -/
def c1w : Certificate :=
  { Id := [65], Country := "SE", Organization := "org", OrganizationalUnit := "ou",
    CommonName := "a.com", AlternativeNames := ["b.com"], Usage := [], CA := false,
    PrivateKey := .rsa [1], SignatureAlg := "SHA256", ValidFrom := 0, ValidTo := 1 }

/-- A descriptor with `id = "A"` (byte 65). -/
def c3dA : Certificate :=
  { Id := [65], Country := "SE", Organization := "org", OrganizationalUnit := "ou",
    CommonName := "cn", AlternativeNames := [], Usage := [], CA := false,
    PrivateKey := .rsa [1], SignatureAlg := "SHA256", ValidFrom := 0, ValidTo := 1 }

/-- A descriptor with `id = "AA"` (bytes 65, 65). -/
def c3dAA : Certificate :=
  { Id := [65, 65], Country := "SE", Organization := "org", OrganizationalUnit := "ou",
    CommonName := "cn", AlternativeNames := [], Usage := [], CA := false,
    PrivateKey := .rsa [1], SignatureAlg := "SHA256", ValidFrom := 0, ValidTo := 1 }

/-- A descriptor with `id = "\x00A"` (bytes 0, 65): a leading zero byte. -/
def c3d0A : Certificate :=
  { Id := [0, 65], Country := "SE", Organization := "org", OrganizationalUnit := "ou",
    CommonName := "cn", AlternativeNames := [], Usage := [], CA := false,
    PrivateKey := .rsa [1], SignatureAlg := "SHA256", ValidFrom := 0, ValidTo := 1 }

/-- A descriptor with a non-empty common name. -/
def c7dA : Certificate :=
  { Id := [65], Country := "SE", Organization := "org", OrganizationalUnit := "ou",
    CommonName := "a.com", AlternativeNames := [], Usage := [], CA := false,
    PrivateKey := .ecdsa [1], SignatureAlg := "SHA256", ValidFrom := 0, ValidTo := 1 }

/-- A descriptor with an empty common name. -/
def c7dB : Certificate :=
  { Id := [65], Country := "SE", Organization := "org", OrganizationalUnit := "ou",
    CommonName := "", AlternativeNames := [], Usage := [], CA := false,
    PrivateKey := .ecdsa [1], SignatureAlg := "SHA256", ValidFrom := 0, ValidTo := 1 }

/-- A descriptor whose country, organization and organizational unit are all
empty strings. -/
def c9d : Certificate :=
  { Id := [65], Country := "", Organization := "", OrganizationalUnit := "",
    CommonName := "cn", AlternativeNames := [], Usage := [], CA := true,
    PrivateKey := .rsa [1], SignatureAlg := "SHA256", ValidFrom := 0, ValidTo := 1 }

/-! ### Helper lemmas -/

lemma sha1_length (msg : List Nat) : (sha1 msg).length = 20 := by
  simp [sha1, wordBytes]

lemma template_DNSNames (d : Certificate) :
    (CreateCertificateTemplate d).DNSNames =
      if d.AlternativeNames.length > 0 then
        if isStringInList d.CommonName d.AlternativeNames then d.AlternativeNames
        else d.AlternativeNames ++ [d.CommonName]
      else [] := rfl

lemma template_Subject_CommonName (d : Certificate) :
    (CreateCertificateTemplate d).Subject.CommonName =
      if d.CommonName ≠ "" then some d.CommonName else none := rfl

lemma template_SerialNumber (d : Certificate) :
    (CreateCertificateTemplate d).SerialNumber = natOfBytes d.Id := rfl

lemma isStringInList_iff (value : String) (l : List String) :
    isStringInList value l = true ↔ value ∈ l := by
  induction l with
  | nil => simp [isStringInList]
  | cons v rest ih =>
    simp only [isStringInList]
    by_cases h : v = value
    · simp [h, List.mem_cons]
    · rw [if_neg h]
      simp only [ih, List.mem_cons]
      exact (or_iff_right (fun he => h he.symm)).symm

lemma natOfBytes_foldl (l : List Nat) (acc : Nat) :
    l.foldl (fun a b => a * 256 + b) acc = acc * 256 ^ l.length + natOfBytes l := by
  induction l generalizing acc with
  | nil => simp [natOfBytes]
  | cons b t ih =>
    have hb : natOfBytes (b :: t) = List.foldl (fun a x => a * 256 + x) b t := by
      simp [natOfBytes]
    rw [List.foldl_cons, ih (acc * 256 + b), hb, ih b, List.length_cons]
    ring

lemma natOfBytes_cons (b : Nat) (t : List Nat) :
    natOfBytes (b :: t) = b * 256 ^ t.length + natOfBytes t := by
  have hb : natOfBytes (b :: t) = List.foldl (fun a x => a * 256 + x) b t := by
    simp [natOfBytes]
  rw [hb, natOfBytes_foldl]

lemma natOfBytes_lt (l : List Nat) (h : ∀ b ∈ l, b < 256) :
    natOfBytes l < 256 ^ l.length := by
  induction l with
  | nil => simp [natOfBytes]
  | cons b t ih =>
    rw [natOfBytes_cons, List.length_cons, pow_succ]
    have hb : b < 256 := h b (List.mem_cons_self b t)
    have ht : natOfBytes t < 256 ^ t.length :=
      ih (fun x hx => h x (List.mem_cons_of_mem _ hx))
    calc b * 256 ^ t.length + natOfBytes t
        < b * 256 ^ t.length + 256 ^ t.length := by omega
      _ = (b + 1) * 256 ^ t.length := by ring
      _ ≤ 256 * 256 ^ t.length := Nat.mul_le_mul_right _ hb
      _ = 256 ^ t.length * 256 := by ring

lemma le_natOfBytes_cons (b : Nat) (t : List Nat) (hb : b ≠ 0) :
    256 ^ t.length ≤ natOfBytes (b :: t) := by
  rw [natOfBytes_cons]
  have h1 : 1 ≤ b := Nat.one_le_iff_ne_zero.mpr hb
  calc 256 ^ t.length = 1 * 256 ^ t.length := (one_mul _).symm
    _ ≤ b * 256 ^ t.length := Nat.mul_le_mul_right _ h1
    _ ≤ b * 256 ^ t.length + natOfBytes t := Nat.le_add_right _ _

lemma getUsageLoop_eq (us : List String) (k : Nat) (e : List ExtKeyUsage) :
    getUsageLoop k e us =
      (us.foldl (fun a t => a ||| usageBit t) k, e ++ us.filterMap extTok) := by
  induction us generalizing k e with
  | nil => simp [getUsageLoop]
  | cons t rest ih =>
    simp only [getUsageLoop, List.foldl_cons, List.filterMap_cons]
    split_ifs with h1 h2 h3 h4 h5 h6 h7 <;>
      simp_all [ih, usageBit, extTok]

lemma unrecognized_tok (t : String) (h : recognizedUsageToken t = false) :
    usageBit t = 0 ∧ extTok t = none := by
  simp only [recognizedUsageToken, Bool.or_eq_false_iff, decide_eq_false_iff_not] at h
  obtain ⟨⟨⟨⟨⟨⟨h1, h2⟩, h3⟩, h4⟩, h5⟩, h6⟩, h7⟩ := h
  constructor
  · simp [usageBit, h1, h2, h3, h4, h5]
  · simp [extTok, h6, h7]

lemma foldl_or_zero (l : List String) (k : Nat) (h : ∀ t ∈ l, usageBit t = 0) :
    l.foldl (fun a t => a ||| usageBit t) k = k := by
  induction l generalizing k with
  | nil => rfl
  | cons t rest ih =>
    rw [List.foldl_cons, h t (List.mem_cons_self t rest)]
    have hk : k ||| 0 = k := by simp
    rw [hk]
    exact ih k (fun x hx => h x (List.mem_cons_of_mem _ hx))

/-! ### The claims -/

/-- C1 (amended): if `alternativeNames` is non-empty, the template's DNS-name
list equals `alternativeNames` with `commonName` appended as one additional
entry exactly when it is not already an element of `alternativeNames` — even
when `commonName` is empty, in which case an empty-string DNS entry is
appended; if `alternativeNames` is empty, the template has no DNS names. -/
theorem san_precedence (d : Certificate) :
    (d.AlternativeNames ≠ [] →
      (CreateCertificateTemplate d).DNSNames =
        if d.CommonName ∈ d.AlternativeNames then d.AlternativeNames
        else d.AlternativeNames ++ [d.CommonName]) ∧
    (d.AlternativeNames = [] → (CreateCertificateTemplate d).DNSNames = []) := by
  constructor
  · intro h
    rw [template_DNSNames, if_pos (List.length_pos.mpr h)]
    by_cases hm : d.CommonName ∈ d.AlternativeNames
    · rw [if_pos ((isStringInList_iff _ _).mpr hm), if_pos hm]
    · rw [if_neg (fun hh => hm ((isStringInList_iff _ _).mp hh)), if_neg hm]
  · intro h
    rw [template_DNSNames]
    simp [h]

/-- C1 counterexample to the claim as stated: with an empty common name and
`alternativeNames = ["b.com"]`, the claim predicts a DNS-name list equal to
`alternativeNames`, but the code appends the empty common name. -/
theorem san_precedence_claim_counterexample :
    c1cx.AlternativeNames = ["b.com"] ∧ c1cx.CommonName = "" ∧
    (CreateCertificateTemplate c1cx).DNSNames ≠ c1cx.AlternativeNames ∧
    (CreateCertificateTemplate c1cx).DNSNames = ["b.com", ""] := by decide

/-- C1 witness: the amended theorem applied to a concrete descriptor with
`commonName = "a.com"` and `alternativeNames = ["b.com"]`. -/
theorem san_precedence_witness :
    (CreateCertificateTemplate c1w).DNSNames = ["b.com", "a.com"] := by
  have h := (san_precedence c1w).1 (by decide)
  rw [h]
  decide

/-- C2 (amended): `CheckCertificate` returns `true` exactly when the root and
leaf bytes parse and chain verification of the leaf against the root pool and
intermediate pool with the bound hostname succeeds; it terminates abnormally
(Go panic) exactly when parsing the root bytes or the leaf bytes fails —
rather than returning `false` as the original claim states.  Parse failures of
the intermediate bytes only shrink the intermediate pool. -/
theorem CheckCertificate_spec {C : Type} (parseCertificate : List Nat → Option C)
    (parseCertificates : List Nat → List C)
    (verifyOk : C → String → List C → List C → Bool)
    (dnsName : String) (caBytes interCaBytes clientBytes : List Nat) :
    (CheckCertificate parseCertificate parseCertificates verifyOk dnsName
        caBytes interCaBytes clientBytes = Except.ok true ↔
      ∃ rootCert clientCert, parseCertificate caBytes = some rootCert ∧
        parseCertificate clientBytes = some clientCert ∧
        verifyOk clientCert dnsName [rootCert] (parseCertificates interCaBytes) = true) ∧
    ((∃ e, CheckCertificate parseCertificate parseCertificates verifyOk dnsName
        caBytes interCaBytes clientBytes = Except.error e) ↔
      parseCertificate caBytes = none ∨ parseCertificate clientBytes = none) := by
  unfold CheckCertificate
  cases hca : parseCertificate caBytes with
  | none => simp
  | some r =>
    cases hcl : parseCertificate clientBytes with
    | none => simp
    | some c =>
      cases hv : verifyOk c dnsName [r] (parseCertificates interCaBytes) <;> simp [hv]

/-- C2 counterexample to the claim as stated: with a parser that fails on the
(malformed) empty byte string, `CheckCertificate` terminates abnormally — the
parsed nil root is handed to `CertPool.AddCert`, which panics — instead of
returning `false`. -/
theorem CheckCertificate_claim_counterexample :
    CheckCertificate (C := Unit) (fun b => if b.length = 0 then none else some ())
        (fun _ => []) (fun _ _ _ _ => true) "example.com" [] [] [] =
      Except.error GoPanic.addNilCert ∧
    CheckCertificate (C := Unit) (fun b => if b.length = 0 then none else some ())
        (fun _ => []) (fun _ _ _ _ => true) "example.com" [] [] [] ≠
      Except.ok false := by
  refine ⟨rfl, fun h => ?_⟩
  simp [CheckCertificate] at h

/-- C2 witness: the amended theorem applied at a concrete parser, verifier and
byte strings where everything parses and verification succeeds. -/
theorem CheckCertificate_spec_witness :
    CheckCertificate (C := Unit) (fun b => if b.length = 0 then none else some ())
        (fun _ => []) (fun _ _ _ _ => true) "example.com" [1] [] [2] =
      Except.ok true :=
  (CheckCertificate_spec (C := Unit) (fun b => if b.length = 0 then none else some ())
    (fun _ => []) (fun _ _ _ _ => true) "example.com" [1] [] [2]).1.mpr
    ⟨(), (), rfl, rfl, rfl⟩

/-- C3 (amended): the template's serial number is the big-endian integer
interpretation of the raw bytes of `descriptor.id`; identical id strings yield
identical serial numbers; and two ids of different lengths yield different
serial numbers provided the longer id does not start with a zero byte (ids
differing only in leading zero bytes collide).  In particular `"A"` and
`"AA"` yield different serial numbers. -/
theorem serial_number_bytes (d₁ d₂ : Certificate) :
    (CreateCertificateTemplate d₁).SerialNumber = natOfBytes d₁.Id ∧
    (d₁.Id = d₂.Id →
      (CreateCertificateTemplate d₁).SerialNumber =
        (CreateCertificateTemplate d₂).SerialNumber) ∧
    ((∀ b ∈ d₁.Id, b < 256) → d₁.Id.length < d₂.Id.length → d₂.Id.headD 0 ≠ 0 →
      (CreateCertificateTemplate d₁).SerialNumber ≠
        (CreateCertificateTemplate d₂).SerialNumber) := by
  refine ⟨template_SerialNumber d₁, ?_, ?_⟩
  · intro h
    rw [template_SerialNumber, template_SerialNumber, h]
  · intro hb hlen hhead
    rw [template_SerialNumber, template_SerialNumber]
    cases hid : d₂.Id with
    | nil => rw [hid] at hlen; simp at hlen
    | cons b t =>
      rw [hid] at hlen hhead
      have hbne : b ≠ 0 := by simpa using hhead
      have h1 : natOfBytes d₁.Id < 256 ^ d₁.Id.length := natOfBytes_lt d₁.Id hb
      have h2 : 256 ^ t.length ≤ natOfBytes (b :: t) := le_natOfBytes_cons b t hbne
      have h3 : 256 ^ d₁.Id.length ≤ 256 ^ t.length := by
        apply Nat.pow_le_pow_right (by norm_num)
        simpa [Nat.lt_succ_iff] using hlen
      exact Nat.ne_of_lt (lt_of_lt_of_le h1 (le_trans h3 h2))

/-- C3 counterexample to the claim as stated: `id = "A"` (byte 65) and
`id = "\x00A"` (bytes 0, 65) are distinct ids of different lengths, yet they
produce the same serial number, 65. -/
theorem serial_number_claim_counterexample :
    c3dA.Id ≠ c3d0A.Id ∧ c3dA.Id.length ≠ c3d0A.Id.length ∧
    (CreateCertificateTemplate c3dA).SerialNumber =
      (CreateCertificateTemplate c3d0A).SerialNumber := by decide

/-- C3 witness: the amended theorem applied to `id = "A"` and `id = "AA"`,
which yield different serial numbers. -/
theorem serial_number_bytes_witness :
    (CreateCertificateTemplate c3dA).SerialNumber ≠
      (CreateCertificateTemplate c3dAA).SerialNumber :=
  (serial_number_bytes c3dA c3dAA).2.2 (by decide) (by decide) (by decide)

/-- C4: for both key kinds and every hash token, `signatureAlgorithm` returns
an algorithm of the key's family, equal to the family-specific algorithm for
the four recognized tokens and to the family's SHA-256 variant otherwise
(`familyAlg` states that token table in the spec's words). -/
theorem signatureAlgorithm_family (pk : PrivateKeyHandle) (t : String) :
    algKind (signatureAlgorithm t pk) = keyKind pk ∧
    signatureAlgorithm t pk = familyAlg (keyKind pk) t := by
  cases pk <;>
    constructor <;>
    simp only [signatureAlgorithm, keyKind, familyAlg, findRsaSignALg, findEcdsaSignALg] <;>
    split_ifs <;> rfl

/-- C4 witness: the theorem applied at an ECDSA key and the token "SHA384". -/
theorem signatureAlgorithm_family_witness :
    algKind (signatureAlgorithm "SHA384" (PrivateKeyHandle.ecdsa [1])) =
      keyKind (PrivateKeyHandle.ecdsa [1]) ∧
    signatureAlgorithm "SHA384" (PrivateKeyHandle.ecdsa [1]) =
      familyAlg (keyKind (PrivateKeyHandle.ecdsa [1])) "SHA384" :=
  signatureAlgorithm_family (PrivateKeyHandle.ecdsa [1]) "SHA384"

/-- C5: on an empty token list, `getUsage` returns exactly
`{CertSign, CRLSign}` with no extended usage for CA descriptors, and exactly
`{KeyEncipherment, DigitalSignature}` with extended usage
`[ClientAuth, ServerAuth]` for non-CA descriptors. -/
theorem getUsage_defaults :
    getUsage [] true = (KeyUsageCertSign ||| KeyUsageCRLSign, []) ∧
    getUsage [] false =
      (KeyUsageKeyEncipherment ||| KeyUsageDigitalSignature,
       [ExtKeyUsage.clientAuth, ExtKeyUsage.serverAuth]) := by decide

/-- C6: on every non-empty token list, `getUsage` returns the OR of the
key-usage bits of the recognized bit tokens and one extended-usage entry per
occurrence of "clientauth"/"serverauth" in input order, duplicates kept and
unrecognized tokens dropped (`usageBit`/`extTok` are zero/`none` on them). -/
theorem getUsage_nonempty (usage : List String) (ca : Bool) (h : usage ≠ []) :
    getUsage usage ca =
      (usage.foldl (fun a t => a ||| usageBit t) 0, usage.filterMap extTok) := by
  unfold getUsage
  rw [if_neg (by simpa using h)]
  simpa using getUsageLoop_eq usage 0 []

/-- C6 witness: a concrete token list with a duplicate "clientauth" and an
unrecognized token; the duplicate is kept and the unknown token is dropped. -/
theorem getUsage_nonempty_witness :
    getUsage ["clientauth", "bogus", "clientauth", "crlsign"] true =
      (64, [ExtKeyUsage.clientAuth, ExtKeyUsage.clientAuth]) :=
  (getUsage_nonempty ["clientauth", "bogus", "clientauth", "crlsign"] true
    (by decide)).trans (by decide)

/-- C7: the built template's subject carries a common-name attribute equal to
`descriptor.commonName` exactly when that field is non-empty; an empty common
name leaves the subject without the attribute. -/
theorem commonName_attribute (d : Certificate) :
    (d.CommonName ≠ "" →
      (CreateCertificateTemplate d).Subject.CommonName = some d.CommonName) ∧
    (d.CommonName = "" →
      (CreateCertificateTemplate d).Subject.CommonName = none) := by
  constructor
  · intro h
    rw [template_Subject_CommonName, if_pos h]
  · intro h
    rw [template_Subject_CommonName, if_neg (by simp [h])]

/-- C7 witness: the theorem applied to a descriptor with common name "a.com"
and to one with an empty common name. -/
theorem commonName_attribute_witness :
    (CreateCertificateTemplate c7dA).Subject.CommonName = some "a.com" ∧
    (CreateCertificateTemplate c7dB).Subject.CommonName = none :=
  ⟨(commonName_attribute c7dA).1 (by decide), (commonName_attribute c7dB).2 rfl⟩

/-- C8: `keyIdentifier` is the SHA-1 digest of the public key's canonical byte
serialization, hence a deterministic function of it (equal inputs give equal
digests), and its output always has exactly 20 bytes. -/
theorem keyIdentifier_deterministic (p q : List Nat) (h : p = q) :
    keyIdentifier p = keyIdentifier q ∧ (keyIdentifier p).length = 20 ∧
    keyIdentifier p = sha1 p :=
  ⟨by rw [h], sha1_length p, rfl⟩

/-- C8 witness: two calls on the byte string `[1, 2, 3]`. -/
theorem keyIdentifier_deterministic_witness :
    keyIdentifier [1, 2, 3] = keyIdentifier [1, 2, 3] ∧
    (keyIdentifier [1, 2, 3]).length = 20 ∧
    keyIdentifier [1, 2, 3] = sha1 [1, 2, 3] :=
  keyIdentifier_deterministic [1, 2, 3] [1, 2, 3] rfl

/-- C9: the template's subject country, organization and organizational unit
are each the single-element list holding the corresponding descriptor string,
whatever that string is — in particular also when it is empty. -/
theorem subject_singleton_fields (d : Certificate) :
    (CreateCertificateTemplate d).Subject.Country = [d.Country] ∧
    (CreateCertificateTemplate d).Subject.Organization = [d.Organization] ∧
    (CreateCertificateTemplate d).Subject.OrganizationalUnit =
      [d.OrganizationalUnit] :=
  ⟨rfl, rfl, rfl⟩

/-- C9 witness: the theorem applied to a descriptor whose country,
organization and organizational unit are all empty strings. -/
theorem subject_singleton_fields_witness :
    (CreateCertificateTemplate c9d).Subject.Country = [""] ∧
    (CreateCertificateTemplate c9d).Subject.Organization = [""] ∧
    (CreateCertificateTemplate c9d).Subject.OrganizationalUnit = [""] :=
  subject_singleton_fields c9d

/-- C10: on a non-empty token list in which no token is recognized, `getUsage`
returns the zero key-usage bit set and an empty extended-usage list — the
CA/non-CA defaults apply only to the literally empty list. -/
theorem getUsage_no_recognized (usage : List String) (ca : Bool) (h : usage ≠ [])
    (hr : ∀ t ∈ usage, recognizedUsageToken t = false) :
    getUsage usage ca = (0, []) := by
  unfold getUsage
  rw [if_neg (by simpa using h), getUsageLoop_eq]
  have hb : ∀ t ∈ usage, usageBit t = 0 := fun t ht => (unrecognized_tok t (hr t ht)).1
  have he : ∀ t ∈ usage, extTok t = none := fun t ht => (unrecognized_tok t (hr t ht)).2
  rw [foldl_or_zero usage 0 hb]
  simp [List.filterMap_eq_nil_iff.mpr he]

/-- C10 witness: the theorem applied to the token list `["foo", "bar"]`. -/
theorem getUsage_no_recognized_witness :
    getUsage ["foo", "bar"] false = (0, []) :=
  getUsage_no_recognized ["foo", "bar"] false (by decide) (by decide)

end CertificateBar
